import Mathlib

/-! Verification of the fika headless-client idle-lifecycle monitor.

Shallow embedding of the four Python modules:
  * `app/services/async_docker.py` — the log classifier (`AsyncLogMonitor.monitor_for_activity`);
  * `app/services/sync_docker.py`  — the synchronous container controller (`SyncDocker`);
  * `app/services/spt_server.py`   — the SPT server HTTP client (`SPTServer`);
  * `app/main.py`                  — the coordinator (`FikaMonitor`).

Modelling conventions: wall-clock timestamps are naturals (the source uses
`time.time()` floats; all arithmetic performed on them is exact addition of
small integers, so naturals are faithful); side effects (docker commands,
HTTP notifications, player-count fetches) are reified as an explicit list of
`Eff` values returned next to the updated state; fallible backend calls are
parameters of type `Except` / an outcome datatype, one parameter per call the
source makes.
-/

/-! Log classifier — `app/services/async_docker.py` -/

/-- Head-match test: `firstMatches needle hay` is true when `needle` occurs at
the very start of `hay` (Python `hay.startswith(needle)` on character lists). -/
def firstMatches : List Char → List Char → Bool
  | [], _ => true
  | _ :: _, [] => false
  | a :: as, b :: bs => a == b && firstMatches as bs

/-- Substring test: `containsSub needle hay` is true when `needle` occurs
somewhere inside `hay` — the embedding of the Python `needle in hay` test. -/
def containsSub (needle : List Char) : List Char → Bool
  | [] => firstMatches needle []
  | c :: rest => firstMatches needle (c :: rest) || containsSub needle rest

/-- The configured activity substrings, in source order
(`AsyncLogMonitor.activity_messages`, async_docker.py lines 30–35). -/
def activity_messages : List String :=
  ["/launcher/profile/login",
   "/launcher/server/version",
   "/fika/presence/set",
   "/fika/update/ping"]

/-- Scan for `"has connected"` with no newline before it — the `.*(has connected)`
tail of the regex `re.search` uses (`.` does not match a newline). -/
def midScan (hc : List Char) : List Char → Bool
  | [] => false
  | c :: rest => firstMatches hc (c :: rest) || (c != '\n' && midScan hc rest)

/-- Embedding of the `re.search` call on async_docker.py line 88, whose regex
is `(headless_).*(has connected)`: some occurrence of `"headless_"` is followed, with no
intervening newline, by `"has connected"`. -/
def headlessStartedMatch : List Char → Bool
  | [] => false
  | c :: rest =>
      (firstMatches "headless_".data (c :: rest)
        && midScan "has connected".data ((c :: rest).drop 9))
      || headlessStartedMatch rest

/-- The `for activity_message in self.activity_messages: if activity_message in
line: yield activity_message` loop of `monitor_for_activity`
(async_docker.py lines 84–86): all matching substrings are yielded, in list
order, with no break. -/
def yieldMatches : List String → List Char → List String
  | [], _ => []
  | m :: ms, line =>
      (if containsSub m.data line then [m] else []) ++ yieldMatches ms line

/-- The signals `monitor_for_activity` yields for a single log line
(async_docker.py lines 83–90): every matching activity substring in
enumeration order, then `"headless_started"` when the regex matches. -/
def monitor_for_activity_line (line : List Char) : List String :=
  yieldMatches activity_messages line
    ++ (if headlessStartedMatch line then ["headless_started"] else [])

/-! SPT server client — `app/services/spt_server.py` -/

/-- Outcome of the single HTTP GET `fetch_online_players` performs: either a
transport-level failure (the `ClientError` the source catches) or a response
carrying a status code and the decoded JSON array of player objects (modelled
by their names). -/
inductive HttpOutcome where
  | transportFailure : HttpOutcome
  | response (status : Nat) (players : List String) : HttpOutcome
deriving DecidableEq, Repr

/-- Embedding of `SPTServer.fetch_online_players` (spt_server.py lines 24–42):
on a response with status exactly 200 return the decoded player list; on any
other status log and return `[]`; on a `ClientError` log and return `[]`.
Total — the modelled failure mode is caught, nothing propagates. -/
def fetch_online_players : HttpOutcome → List String
  | .transportFailure => []
  | .response status players => if status = 200 then players else []

/-- Embedding of `FikaMonitor.check_players_api` (main.py lines 84–92): the
count of entries `fetch_online_players` returned. -/
def check_players_api (o : HttpOutcome) : Nat :=
  (fetch_online_players o).length

/-! Synchronous docker controller — `app/services/sync_docker.py` -/

/-- The two exception classes the source catches around every docker call
(`docker.errors.NotFound`, `docker.errors.APIError`). -/
inductive DockerErr where
  | notFound : DockerErr
  | apiError : DockerErr
deriving DecidableEq, Repr

/-- A docker backend command the controller can issue. -/
inductive DockerCmd where
  | start : DockerCmd
  | stop : DockerCmd
deriving DecidableEq, Repr

/-- Embedding of `SyncDocker.get_container_status` (sync_docker.py lines
20–30). The backend inspection is a parameter: `ok s` is a found container
with raw status string `s`; the two error outcomes are the caught exceptions.
Total — absence and API faults are mapped to sentinel strings, never raised. -/
def get_container_status (inspect : Except DockerErr String) : String :=
  match inspect with
  | .ok s => s
  | .error .notFound => "not_found"
  | .error .apiError => "error"

/-- Embedding of `SyncDocker.start_container` (sync_docker.py lines 32–44) as
the list of backend commands it issues: start only when the container was
found and its status is not `"running"`; both exceptions are caught and issue
nothing. -/
def start_container (inspect : Except DockerErr String) : List DockerCmd :=
  match inspect with
  | .ok s => if s != "running" then [DockerCmd.start] else []
  | .error _ => []

/-- Embedding of `SyncDocker.stop_container` (sync_docker.py lines 46–58):
stop only when the container was found and its status is `"running"`. -/
def stop_container (inspect : Except DockerErr String) : List DockerCmd :=
  match inspect with
  | .ok s => if s == "running" then [DockerCmd.stop] else []
  | .error _ => []

/-- Effect of a list of issued backend commands on the raw status string of a
container: the docker engine moves a started container to `"running"` and a
stopped one to `"exited"`; no command leaves it unchanged. -/
def applyCmds (s : String) : List DockerCmd → String
  | [] => s
  | DockerCmd.start :: rest => applyCmds "running" rest
  | DockerCmd.stop :: rest => applyCmds "exited" rest

/-- The container states the docker engine reports (the value set of
`Container.status` for a found container). -/
def docker_container_states : List String :=
  ["created", "restarting", "running", "removing", "paused", "exited", "dead"]

/-- The four-valued status from the data model of the specification. -/
inductive ManagedResourceStatus where
  | Running : ManagedResourceStatus
  | Stopped : ManagedResourceStatus
  | NotFound : ManagedResourceStatus
  | Error : ManagedResourceStatus
deriving DecidableEq, Repr

/-- Abstraction from the string statuses the code passes around to the
`ManagedResourceStatus` of the specification: the controller sentinel strings map
to `NotFound`/`Error`, `"running"` to `Running`, and every other engine state
to `Stopped` (the code consumes statuses exactly as `= "running"` or not). -/
def statusAbs (s : String) : ManagedResourceStatus :=
  if s = "not_found" then ManagedResourceStatus.NotFound
  else if s = "error" then ManagedResourceStatus.Error
  else if s = "running" then ManagedResourceStatus.Running
  else ManagedResourceStatus.Stopped

/-! Coordinator — `app/main.py` -/

/-- A side effect issued by the coordinator, reified: docker status queries,
docker start/stop commands, the player-count fetch (with the count it
returned), and SPT notifications (message, icon). -/
inductive Eff where
  | queryStatus (name : String) : Eff
  | startContainer (name : String) : Eff
  | stopContainer (name : String) : Eff
  | fetchPlayers (count : Nat) : Eff
  | notify (msg : String) (icon : Nat) : Eff
deriving DecidableEq, Repr

/-- The mutable state of `FikaMonitor` (main.py lines 19–43), plus its
read-only configuration. Timestamps are naturals (see the file header). -/
structure FikaMonitor where
  headless_container_name : String
  server_container_name : String
  shutdown_delay : Nat
  current_time : Nat
  last_activity_time : Nat
  shutdown_time : Nat
  is_running : Bool
  waiting_for_headless_start : Bool
deriving DecidableEq, Repr

/-- Embedding of the constructor (main.py lines 20–43). The source calls
`time.time()` twice (once for `current_time`, once for `last_activity_time`),
so the two readings are separate parameters `t1`, `t2`. -/
def FikaMonitor.init (hname sname : String) (shutdown_delay t1 t2 : Nat) : FikaMonitor :=
  { headless_container_name := hname
    server_container_name := sname
    shutdown_delay := shutdown_delay
    current_time := t1
    last_activity_time := t2
    shutdown_time := t2 + shutdown_delay
    is_running := true
    waiting_for_headless_start := false }

/-- Embedding of `FikaMonitor.activity_detected` (main.py lines 50–60). Note the source
sets `last_activity_time` to the cached `self.current_time` field — it does
not read the clock. `container_status` is the value the fresh
`get_container_status` call inside this method returned. Returns the updated
state and the effects issued. -/
def FikaMonitor.activity_detected (st : FikaMonitor) (container_status : String) :
    FikaMonitor × List Eff :=
  let st1 := { st with
    last_activity_time := st.current_time
    shutdown_time := st.current_time + st.shutdown_delay }
  if container_status != "running" then
    ({ st1 with waiting_for_headless_start := true },
     [Eff.queryStatus st.headless_container_name,
      Eff.startContainer st.headless_container_name,
      Eff.notify "Player activity detected, starting headless client..." 0])
  else
    (st1, [Eff.queryStatus st.headless_container_name])

/-- One iteration of the signal-consumption loop body in
`FikaMonitor.monitor_logs_task` (main.py lines 70–82), handling one yielded
`activity_message`. `container_status` is what the status query inside
`activity_detected` would return (unused on the `headless_started` branch,
where no query happens). -/
def FikaMonitor.monitor_logs_step (st : FikaMonitor) (activity_message : String)
    (container_status : String) : FikaMonitor × List Eff :=
  if !st.is_running then
    (st, [])
  else if activity_message == "headless_started" then
    if st.waiting_for_headless_start then
      ({ st with waiting_for_headless_start := false },
       [Eff.notify "Headless client is available." 5])
    else
      (st, [])
  else
    st.activity_detected container_status

/-- One iteration of the body of `FikaMonitor.maintenance_loop` (main.py lines
101–123), after the 5-second sleep. `now` is what `time.time()` returns at
the top of the tick; `status1` is the status query result of the tick itself;
`status2` is the result of the second status query performed inside
`activity_detected` on the abort path; `api` is the outcome of the
player-count HTTP call. -/
def FikaMonitor.maintenance_tick (st : FikaMonitor) (now : Nat) (status1 status2 : String)
    (api : HttpOutcome) : FikaMonitor × List Eff :=
  let st1 := { st with current_time := now }
  if st1.current_time < st1.shutdown_time then
    (st1, [])
  else if status1 != "running" then
    (st1, [Eff.queryStatus st.headless_container_name])
  else
    let players_online := check_players_api api
    if players_online > 0 then
      let r := st1.activity_detected status2
      (r.1, [Eff.queryStatus st.headless_container_name,
             Eff.fetchPlayers players_online] ++ r.2)
    else if status1 == "running" then
      (st1, [Eff.queryStatus st.headless_container_name,
             Eff.fetchPlayers players_online,
             Eff.stopContainer st.headless_container_name])
    else
      (st1, [Eff.queryStatus st.headless_container_name,
             Eff.fetchPlayers players_online])

/-- The initial-status update at the top of `FikaMonitor.run` (main.py lines
155–162): if the companion container is already `"running"`, set
`last_activity_time` to a fresh `time.time()` reading `now`. The source does
not touch `shutdown_time` here. -/
def FikaMonitor.run_initial_update (st : FikaMonitor) (now : Nat)
    (initial_status : String) : FikaMonitor :=
  if initial_status == "running" then
    { st with last_activity_time := now }
  else
    st

/-- The polling loop of `FikaMonitor.wait_for_initialization` (main.py lines
132–144): while `is_running` and less than `timeout` seconds have elapsed,
ping; a successful ping returns true, otherwise sleep 2 seconds and retry.
`running i` / `pings i` are the values read on the i-th iteration; `elapsed`
advances by the 2-second sleep. Returns whether initialization succeeded. -/
def wait_init_from (running pings : Nat → Bool) (timeout : Nat) (i elapsed : Nat) : Bool :=
  if running i then
    if h : elapsed < timeout then
      if pings i then true
      else wait_init_from running pings timeout (i + 1) (elapsed + 2)
    else false
  else false
termination_by timeout - elapsed
decreasing_by simp_wf; omega

/-- Embedding of `FikaMonitor.wait_for_initialization` at its default 30-second
timeout. -/
def wait_for_initialization (running pings : Nat → Bool) : Bool :=
  wait_init_from running pings 30 0 0

/-- The startup sequencing of `FikaMonitor.run` (main.py lines 146–166) up to
the point where the two loops are created: if initialization fails, return
with the state untouched and no loops started; otherwise apply the
initial-status update and start the loops. The boolean records whether the
two loop tasks were started. -/
def FikaMonitor.run_startup (st : FikaMonitor) (running pings : Nat → Bool)
    (initial_status : String) (now : Nat) : FikaMonitor × Bool :=
  if wait_for_initialization running pings then
    (st.run_initial_update now initial_status, true)
  else
    (st, false)

/-! Helper lemmas -/

/-- The substring loop of the classifier yields exactly the matching configured
substrings, in configuration order. -/
lemma yieldMatches_eq_filter (ms : List String) (line : List Char) :
    yieldMatches ms line = ms.filter (fun m => containsSub m.data line) := by
  induction ms with
  | nil => rfl
  | cons m ms ih =>
      rw [yieldMatches, List.filter_cons]
      by_cases h : containsSub m.data line <;> simp [h, ih]
/-! Claim theorems -/

/-- C5: for every input log line the classifier checks the companion-started
pattern and all configured activity substrings, emitting exactly one signal
per match: the count of a configured substring among the yielded signals is 1
when the line contains it and 0 otherwise, the count of the companion-started
signal is 1 exactly when the regex matches, and a line matching nothing
yields no signal at all. -/
theorem classify_one_signal_per_match (line : List Char) (m : String)
    (hm : m ∈ activity_messages) :
    List.count m (monitor_for_activity_line line)
        = (if containsSub m.data line then 1 else 0) ∧
    List.count "headless_started" (monitor_for_activity_line line)
        = (if headlessStartedMatch line then 1 else 0) ∧
    (monitor_for_activity_line line = [] ↔
      ((∀ x ∈ activity_messages, ¬ containsSub x.data line) ∧
        ¬ headlessStartedMatch line)) := by
  have hnodup : activity_messages.Nodup := by decide
  have hne : m ≠ "headless_started" := fun heq => absurd (heq ▸ hm) (by decide)
  have hhs : "headless_started" ∉ activity_messages := by decide
  refine ⟨?_, ?_, ?_⟩
  · rw [monitor_for_activity_line, List.count_append, yieldMatches_eq_filter]
    have htail : List.count m
        (if headlessStartedMatch line then ["headless_started"] else []) = 0 := by
      split
      · simp [List.count_cons, hne]
      · simp
    rw [htail, Nat.add_zero]
    by_cases hc : containsSub m.data line
    · rw [if_pos hc, List.count_filter (by simpa using hc),
        List.count_eq_one_of_mem hnodup hm]
    · rw [if_neg hc]
      refine List.count_eq_zero_of_not_mem fun hmem => ?_
      exact hc (List.mem_filter.mp hmem).2
  · rw [monitor_for_activity_line, List.count_append, yieldMatches_eq_filter]
    have hhead : List.count "headless_started"
        (activity_messages.filter (fun x => containsSub x.data line)) = 0 :=
      List.count_eq_zero_of_not_mem fun hmem =>
        hhs (List.mem_filter.mp hmem).1
    rw [hhead, Nat.zero_add]
    split <;> simp
  · rw [monitor_for_activity_line, yieldMatches_eq_filter, List.append_eq_nil]
    constructor
    · rintro ⟨h1, h2⟩
      refine ⟨fun x hx hcx => ?_, fun hstart => by simp [hstart] at h2⟩
      have := List.filter_eq_nil_iff.mp h1 x hx
      simp at this
      simp [this] at hcx
    · rintro ⟨h1, h2⟩
      refine ⟨List.filter_eq_nil_iff.mpr fun x hx => ?_, by simp [h2]⟩
      simpa using h1 x hx

/-- C5 witness: a concrete line containing one configured substring; the
hypothesis `m ∈ activity_messages` is discharged at
`m = "/fika/presence/set"` and the counts evaluate as claimed. -/
theorem classify_one_signal_per_match_witness :
    "/fika/presence/set" ∈ activity_messages ∧
    (List.count "/fika/presence/set"
        (monitor_for_activity_line "GET /fika/presence/set ok".data)
        = (if containsSub "/fika/presence/set".data "GET /fika/presence/set ok".data
            then 1 else 0) ∧
     List.count "headless_started"
        (monitor_for_activity_line "GET /fika/presence/set ok".data)
        = (if headlessStartedMatch "GET /fika/presence/set ok".data then 1 else 0) ∧
     (monitor_for_activity_line "GET /fika/presence/set ok".data = [] ↔
       ((∀ x ∈ activity_messages,
           ¬ containsSub x.data "GET /fika/presence/set ok".data) ∧
         ¬ headlessStartedMatch "GET /fika/presence/set ok".data))) :=
  ⟨by decide, classify_one_signal_per_match "GET /fika/presence/set ok".data
    "/fika/presence/set" (by decide)⟩

/-- C9: for every log line the classifier output is the matching configured
substrings in the fixed enumeration order of `activity_messages` (an
order-preserving sublist of it), followed — last — by the companion-started
signal when the pattern also matches. -/
theorem classify_signal_order (line : List Char) :
    ∃ ms : List String,
      List.Sublist ms activity_messages ∧
      (∀ m, m ∈ ms ↔ (m ∈ activity_messages ∧ containsSub m.data line)) ∧
      monitor_for_activity_line line
        = ms ++ (if headlessStartedMatch line then ["headless_started"] else []) := by
  refine ⟨activity_messages.filter (fun m => containsSub m.data line),
    List.filter_sublist activity_messages, fun m => ?_, ?_⟩
  · simp [List.mem_filter]
  · rw [monitor_for_activity_line, yieldMatches_eq_filter]

/-- C4 counterexample: the claim says any 2xx response yields the count of
entries in the player collection, but the source tests `status == 200`
exactly, so a 201 response carrying one player yields count 0, not 1. -/
theorem fetch_players_2xx_counterexample :
    200 ≤ 201 ∧ 201 < 300 ∧
    check_players_api (HttpOutcome.response 201 ["player1"]) ≠ 1 := by decide

/-- C4 amended: `fetch_online_players` never raises (it is total on the
modelled outcomes); it returns the empty collection — count 0 — on a
transport failure and on any status other than exactly 200, and on a 200
response it returns the player collection, whose count is its length. -/
theorem fetch_players_contract (status : Nat) (h : status ≠ 200) :
    fetch_online_players HttpOutcome.transportFailure = [] ∧
    (∀ players : List String,
      fetch_online_players (HttpOutcome.response status players) = []) ∧
    (∀ players : List String,
      check_players_api (HttpOutcome.response 200 players) = players.length) := by
  refine ⟨rfl, fun players => ?_, fun players => ?_⟩
  · simp [fetch_online_players, h]
  · simp [check_players_api, fetch_online_players]

/-- C4 witness: the contract instantiated at the non-200 status 404. -/
theorem fetch_players_contract_witness :
    (404 ≠ 200) ∧
    (fetch_online_players HttpOutcome.transportFailure = [] ∧
     (∀ players : List String,
       fetch_online_players (HttpOutcome.response 404 players) = []) ∧
     (∀ players : List String,
       check_players_api (HttpOutcome.response 200 players) = players.length)) :=
  ⟨by decide, fetch_players_contract 404 (by decide)⟩

/-- C6: the status query is total (absence and API faults are caught, never
raised): absence maps to `NotFound`, an unexpected backend fault to `Error`,
and a successful query on any docker engine state yields exactly `Running`
or `Stopped` under the way the code consumes statuses. -/
theorem get_container_status_total (s : String) (hs : s ∈ docker_container_states) :
    statusAbs (get_container_status (Except.error DockerErr.notFound))
        = ManagedResourceStatus.NotFound ∧
    statusAbs (get_container_status (Except.error DockerErr.apiError))
        = ManagedResourceStatus.Error ∧
    (statusAbs (get_container_status (Except.ok s)) = ManagedResourceStatus.Running ∨
     statusAbs (get_container_status (Except.ok s)) = ManagedResourceStatus.Stopped) := by
  refine ⟨by decide, by decide, ?_⟩
  simp only [docker_container_states, List.mem_cons, List.not_mem_nil, or_false] at hs
  rcases hs with rfl | rfl | rfl | rfl | rfl | rfl | rfl <;> decide

/-- C6 witness: instantiated at the engine state `"exited"`. -/
theorem get_container_status_total_witness :
    "exited" ∈ docker_container_states ∧
    (statusAbs (get_container_status (Except.error DockerErr.notFound))
        = ManagedResourceStatus.NotFound ∧
     statusAbs (get_container_status (Except.error DockerErr.apiError))
        = ManagedResourceStatus.Error ∧
     (statusAbs (get_container_status (Except.ok "exited")) = ManagedResourceStatus.Running ∨
      statusAbs (get_container_status (Except.ok "exited")) = ManagedResourceStatus.Stopped)) :=
  ⟨by decide, get_container_status_total "exited" (by decide)⟩

/-- C7: `start_container` is idempotent — on an already-running container it
issues no backend command at all, so the container status is unchanged;
on any container found in a non-running state it issues the backend start
command. -/
theorem start_container_idempotent (s : String) (h : s ≠ "running") :
    start_container (Except.ok "running") = [] ∧
    applyCmds "running" (start_container (Except.ok "running")) = "running" ∧
    DockerCmd.start ∈ start_container (Except.ok s) := by
  refine ⟨by decide, by decide, ?_⟩
  simp [start_container, h]

/-- C7 witness: instantiated at the non-running state `"exited"`. -/
theorem start_container_idempotent_witness :
    ("exited" ≠ "running") ∧
    (start_container (Except.ok "running") = [] ∧
     applyCmds "running" (start_container (Except.ok "running")) = "running" ∧
     DockerCmd.start ∈ start_container (Except.ok "exited")) :=
  ⟨by decide, start_container_idempotent "exited" (by decide)⟩

/-- Helper: on any maintenance tick whose player-count fetch returned a
positive count, the tick takes the abort path: the deadline is recomputed
from the clock reading of the tick and no stop command is issued. -/
lemma maintenance_tick_fetch_pos (st : FikaMonitor) (now : Nat) (s1 s2 : String)
    (api : HttpOutcome) (n : Nat)
    (hmem : Eff.fetchPlayers n ∈ (st.maintenance_tick now s1 s2 api).2)
    (hn : 0 < n) :
    (st.maintenance_tick now s1 s2 api).1.last_activity_time = now ∧
    (st.maintenance_tick now s1 s2 api).1.shutdown_time = now + st.shutdown_delay ∧
    ∀ name, Eff.stopContainer name ∉ (st.maintenance_tick now s1 s2 api).2 := by
  by_cases h1 : now < st.shutdown_time
  · exfalso
    simp [FikaMonitor.maintenance_tick, h1] at hmem
  · by_cases h2 : s1 = "running"
    · subst h2
      by_cases h3 : 0 < check_players_api api
      · simp [FikaMonitor.maintenance_tick, h1, h3, FikaMonitor.activity_detected]
        split <;> simp
      · exfalso
        simp [FikaMonitor.maintenance_tick, h1, h3] at hmem
        omega
    · exfalso
      simp [FikaMonitor.maintenance_tick, h1, h2] at hmem

/-- C3: on any maintenance tick in which the player-count query returned a
count strictly greater than 0, the coordinator issues no stop command in
that tick and instead treats the result as a fresh activity detection
(deadline recomputed from the clock reading of the tick). -/
theorem no_stop_when_players_online (st : FikaMonitor) (now : Nat) (s1 s2 : String)
    (api : HttpOutcome) (n : Nat)
    (hmem : Eff.fetchPlayers n ∈ (st.maintenance_tick now s1 s2 api).2)
    (hn : 0 < n) :
    (∀ name, Eff.stopContainer name ∉ (st.maintenance_tick now s1 s2 api).2) ∧
    (st.maintenance_tick now s1 s2 api).1.last_activity_time = now ∧
    (st.maintenance_tick now s1 s2 api).1.shutdown_time = now + st.shutdown_delay := by
  obtain ⟨hlast, hdead, hstop⟩ := maintenance_tick_fetch_pos st now s1 s2 api n hmem hn
  exact ⟨hstop, hlast, hdead⟩

/-- C3 witness: a deadline-passed tick (construction at time 0, delay 300,
tick at time 400) with one player online: the fetch effect carries count 1,
no stop is issued, and the deadline becomes 700. -/
theorem no_stop_when_players_online_witness :
    Eff.fetchPlayers 1 ∈ ((FikaMonitor.init "h" "s" 300 0 0).maintenance_tick 400
        "running" "running" (HttpOutcome.response 200 ["p1"])).2 ∧
    0 < 1 ∧
    ((∀ name, Eff.stopContainer name ∉ ((FikaMonitor.init "h" "s" 300 0 0).maintenance_tick
        400 "running" "running" (HttpOutcome.response 200 ["p1"])).2) ∧
     ((FikaMonitor.init "h" "s" 300 0 0).maintenance_tick 400 "running" "running"
        (HttpOutcome.response 200 ["p1"])).1.last_activity_time = 400 ∧
     ((FikaMonitor.init "h" "s" 300 0 0).maintenance_tick 400 "running" "running"
        (HttpOutcome.response 200 ["p1"])).1.shutdown_time
        = 400 + (FikaMonitor.init "h" "s" 300 0 0).shutdown_delay) :=
  ⟨by decide, by decide,
   no_stop_when_players_online (FikaMonitor.init "h" "s" 300 0 0) 400 "running" "running"
     (HttpOutcome.response 200 ["p1"]) 1 (by decide) (by decide)⟩

/-- C1 counterexample: the claim says a named-activity detection at real time
T sets `lastActivityAt = T` and `shutdownDeadline = T + D`. Concretely: the
monitor is constructed at wall time 0 with D = 300; before any maintenance
tick has refreshed the cached `current_time`, a named-activity signal is
consumed at real time T = 10. The code sets `last_activity_time` from the
stale cached `current_time` field, so the state reads 0 and 300, not 10 and
310 as claimed. -/
theorem deadline_realtime_counterexample :
    ((FikaMonitor.init "h" "s" 300 0 0).monitor_logs_step "/fika/presence/set"
        "running").1.last_activity_time = 0 ∧
    ((FikaMonitor.init "h" "s" 300 0 0).monitor_logs_step "/fika/presence/set"
        "running").1.shutdown_time = 300 ∧
    ¬ (((FikaMonitor.init "h" "s" 300 0 0).monitor_logs_step "/fika/presence/set"
          "running").1.last_activity_time = 10 ∧
       ((FikaMonitor.init "h" "s" 300 0 0).monitor_logs_step "/fika/presence/set"
          "running").1.shutdown_time = 10 + 300) := by decide

/-- C1 amended: after any activity detection, `last_activity_time` and
`shutdown_time` are updated together in one atomic step (no suspension point
separates them, so there is no window where the deadline is stale relative
to the newer activity time), and both are computed from the cached
`current_time` of the coordinator: a named-activity signal consumed while running sets
`last_activity_time` to the cached `current_time` (the reading taken at the
most recent maintenance tick, or at construction) and the deadline to that
value plus D; a player-count veto inside a maintenance tick sets them from
the fresh clock reading `now` of that tick. -/
theorem deadline_from_cached_time (st : FikaMonitor) (msg status2 : String)
    (now : Nat) (s1 s2 : String) (api : HttpOutcome) (n : Nat)
    (hrun : st.is_running = true) (hmsg : msg ≠ "headless_started")
    (hmem : Eff.fetchPlayers n ∈ (st.maintenance_tick now s1 s2 api).2)
    (hn : 0 < n) :
    ((st.monitor_logs_step msg status2).1.last_activity_time = st.current_time ∧
     (st.monitor_logs_step msg status2).1.shutdown_time
        = st.current_time + st.shutdown_delay) ∧
    ((st.maintenance_tick now s1 s2 api).1.last_activity_time = now ∧
     (st.maintenance_tick now s1 s2 api).1.shutdown_time = now + st.shutdown_delay) := by
  obtain ⟨hlast, hdead, _⟩ := maintenance_tick_fetch_pos st now s1 s2 api n hmem hn
  refine ⟨?_, hlast, hdead⟩
  simp [FikaMonitor.monitor_logs_step, hrun, hmsg, FikaMonitor.activity_detected]
  split <;> simp

/-- C1 amended witness: the monitor constructed at time 0 with D = 300
(cached `current_time` = 0) consumes `"/fika/presence/set"`, and a tick at
time 400 with one player online takes the veto path. -/
theorem deadline_from_cached_time_witness :
    (FikaMonitor.init "h" "s" 300 0 0).is_running = true ∧
    ("/fika/presence/set" ≠ "headless_started") ∧
    Eff.fetchPlayers 1 ∈ ((FikaMonitor.init "h" "s" 300 0 0).maintenance_tick 400
        "running" "running" (HttpOutcome.response 200 ["p1"])).2 ∧
    0 < 1 ∧
    ((((FikaMonitor.init "h" "s" 300 0 0).monitor_logs_step "/fika/presence/set"
          "running").1.last_activity_time
        = (FikaMonitor.init "h" "s" 300 0 0).current_time ∧
      ((FikaMonitor.init "h" "s" 300 0 0).monitor_logs_step "/fika/presence/set"
          "running").1.shutdown_time
        = (FikaMonitor.init "h" "s" 300 0 0).current_time
          + (FikaMonitor.init "h" "s" 300 0 0).shutdown_delay) ∧
     (((FikaMonitor.init "h" "s" 300 0 0).maintenance_tick 400 "running" "running"
          (HttpOutcome.response 200 ["p1"])).1.last_activity_time = 400 ∧
      ((FikaMonitor.init "h" "s" 300 0 0).maintenance_tick 400 "running" "running"
          (HttpOutcome.response 200 ["p1"])).1.shutdown_time
        = 400 + (FikaMonitor.init "h" "s" 300 0 0).shutdown_delay)) :=
  ⟨rfl, by decide, by decide, by decide,
   deadline_from_cached_time (FikaMonitor.init "h" "s" 300 0 0) "/fika/presence/set"
     "running" 400 "running" "running" (HttpOutcome.response 200 ["p1"]) 1
     rfl (by decide) (by decide) (by decide)⟩

/-- C2: evaluation of the startup initialization at a concrete input showing
the claimed invariant is broken by the code. The monitor is constructed at
wall time 0 with D = 300 (so `shutdown_time = 300`); startup finds the
companion already `"running"` at wall time 10 and sets
`last_activity_time := 10` — but the source never recomputes
`shutdown_time`, so afterwards `shutdown_time = 300 ≠ 10 + 300 =
last_activity_time + shutdown_delay`: the invariant does not survive the
startup-initialization path. -/
theorem startup_invariant_violation :
    ((FikaMonitor.init "fika-headless" "fika-server" 300 0 0).run_initial_update 10
        "running").last_activity_time = 10 ∧
    ((FikaMonitor.init "fika-headless" "fika-server" 300 0 0).run_initial_update 10
        "running").shutdown_time = 300 ∧
    ((FikaMonitor.init "fika-headless" "fika-server" 300 0 0).run_initial_update 10
        "running").shutdown_time
      ≠ ((FikaMonitor.init "fika-headless" "fika-server" 300 0 0).run_initial_update 10
          "running").last_activity_time
        + ((FikaMonitor.init "fika-headless" "fika-server" 300 0 0).run_initial_update 10
            "running").shutdown_delay := by decide

/-- C10: when the freshly queried companion status is `"running"`, an
activity detection modifies only `last_activity_time` and `shutdown_time`:
the `waiting_for_headless_start` flag, the `is_running` flag, the cached
`current_time` and all configuration fields are unchanged, no start command
is issued, and no notification is sent. -/
theorem activity_detected_frame (st : FikaMonitor) :
    ((st.activity_detected "running").1.waiting_for_headless_start
        = st.waiting_for_headless_start) ∧
    ((st.activity_detected "running").1.is_running = st.is_running) ∧
    ((st.activity_detected "running").1.current_time = st.current_time) ∧
    ((st.activity_detected "running").1.headless_container_name
        = st.headless_container_name) ∧
    ((st.activity_detected "running").1.server_container_name
        = st.server_container_name) ∧
    ((st.activity_detected "running").1.shutdown_delay = st.shutdown_delay) ∧
    (∀ name, Eff.startContainer name ∉ (st.activity_detected "running").2) ∧
    (∀ msg icon, Eff.notify msg icon ∉ (st.activity_detected "running").2) := by
  simp [FikaMonitor.activity_detected]

/-- Helper: if every ping fails, the initialization polling loop returns
false from any intermediate iteration (induction on the remaining time
budget). -/
lemma wait_init_from_all_false (running pings : Nat → Bool)
    (h : ∀ j, pings j = false) (timeout : Nat) :
    ∀ k i elapsed, timeout - elapsed ≤ k →
      wait_init_from running pings timeout i elapsed = false := by
  intro k
  induction k with
  | zero =>
      intro i elapsed hk
      rw [wait_init_from]
      have hlt : ¬ elapsed < timeout := by omega
      simp [hlt]
  | succ k ih =>
      intro i elapsed hk
      rw [wait_init_from]
      by_cases hr : running i
      · simp only [hr, if_true, h i, if_false]
        split
        · exact ih (i + 1) (elapsed + 2) (by omega)
        · rfl
      · simp [hr]

/-- C8: if the primary server never answers a ping during the bounded
30-second polling window, startup aborts entirely: the two loop tasks are
never started and the coordinator state is untouched. -/
theorem startup_aborts_without_ping (running pings : Nat → Bool)
    (h : ∀ i, pings i = false) (st : FikaMonitor) (initial_status : String) (now : Nat) :
    (st.run_startup running pings initial_status now).2 = false ∧
    (st.run_startup running pings initial_status now).1 = st := by
  have hw : wait_for_initialization running pings = false :=
    wait_init_from_all_false running pings h 30 30 0 0 (by omega)
  simp [FikaMonitor.run_startup, hw]

/-- C8 witness: every ping fails (constantly-false ping function); the loops
do not start and the state is returned unchanged. -/
theorem startup_aborts_without_ping_witness :
    (∀ i : Nat, (fun _ : Nat => false) i = false) ∧
    (((FikaMonitor.init "h" "s" 300 0 0).run_startup (fun _ => true) (fun _ => false)
        "exited" 5).2 = false ∧
     ((FikaMonitor.init "h" "s" 300 0 0).run_startup (fun _ => true) (fun _ => false)
        "exited" 5).1 = FikaMonitor.init "h" "s" 300 0 0) :=
  ⟨fun _ => rfl,
   startup_aborts_without_ping (fun _ => true) (fun _ => false) (fun _ => rfl)
     (FikaMonitor.init "h" "s" 300 0 0) "exited" 5⟩
